import Mathlib

/-!
# Verification of the DANCER analysis-service queue pipeline

Shallow embedding of `analysis-service` (SQS handler, S3 downloader,
metadata extractor, database updater, orchestrator loop) and proofs of
the specification's claims about it.

External effects (the queue backend, S3 transfers, `os.stat`, `ffprobe`)
are modelled as explicit environment values passed into the embedded
functions; the functions themselves are translated line by line from the
Python source.  Python floats are idealised as rationals; Python string
operations are modelled structurally on character lists so that every
definition evaluates by reduction.
-/

namespace Dancer

/-- A Python/JSON value, as stored in the metadata dictionaries built by
`metadata_extractor.py`. -/
inductive PyVal where
  | none
  | bool (b : Bool)
  | int (n : Int)
  | rat (q : ℚ)
  | str (s : String)
  | list (xs : List PyVal)
  | dict (xs : List (String × PyVal))
deriving Repr

/-- Key lookup in a Python dict value (first binding wins). -/
def PyVal.lookup (v : PyVal) (k : String) : Option PyVal :=
  match v with
  | .dict xs => xs.lookup k
  | _ => .none

/-- The list of keys of a Python dict value. -/
def PyVal.keys (v : PyVal) : List String :=
  match v with
  | .dict xs => xs.map Prod.fst
  | _ => []

/-- Python `s.split(sep)` for a single separator character, on character
lists: `"a/b" ↦ [a, b]`, `"a//b" ↦ [a, [], b]`, `"" ↦ [[]]`. -/
def splitOnChar (c : Char) : List Char → List (List Char)
  | [] => [[]]
  | x :: rest =>
    let r := splitOnChar c rest
    if x = c then [] :: r
    else
      match r with
      | h :: t => (x :: h) :: t
      | [] => [[x]]

/-- Python `s.split(sep)` returning strings. -/
def pySplit (s : String) (c : Char) : List String :=
  (splitOnChar c s.data).map String.mk

/-- Python `sep in s`. -/
def pyContains (s : String) (c : Char) : Bool :=
  s.data.contains c

/-- Python `s.startswith(p)`. -/
def pyStartsWith (s p : String) : Bool :=
  p.data.isPrefixOf s.data

/-- Numeric value of a list of decimal digit characters. -/
def digitsVal (cs : List Char) : ℕ :=
  cs.foldl (fun a c => a * 10 + (c.toNat - 48)) 0

/-- Model of Python `float(s)` on plain decimal literals: optional sign,
then digits with at most one decimal point and at least one digit
overall.  Returns `Option.none` where `float` raises `ValueError`. -/
def pyFloat (s : String) : Option ℚ :=
  let cs := s.data
  let sgn : ℤ := if cs.head? = some '-' then -1 else 1
  let rest : List Char :=
    match cs with
    | '-' :: t => t
    | '+' :: t => t
    | t => t
  match splitOnChar '.' rest with
  | [a] =>
      if 0 < a.length && a.all Char.isDigit then
        Option.some (Rat.divInt (sgn * (digitsVal a : ℤ)) 1)
      else Option.none
  | [a, b] =>
      if 0 < a.length + b.length && a.all Char.isDigit && b.all Char.isDigit then
        Option.some
          (Rat.divInt (sgn * ((digitsVal a * 10 ^ b.length + digitsVal b : ℕ) : ℤ))
            ((10 : ℤ) ^ b.length))
      else Option.none
  | _ => Option.none

/-- Exact division `a / b` of the rational idealisation of two floats,
written through `Rat.divInt` so that it evaluates by reduction. -/
def qDiv (a b : ℚ) : ℚ := Rat.divInt (a.num * (b.den : ℤ)) ((a.den : ℤ) * b.num)

/-- Model of Python `round(x, 2)` on the rational idealisation of
floats: `x * 100` rounded to the nearest integer with ties to even (the
rounding rule of Python's builtin `round`), divided by 100. -/
def round2 (q : ℚ) : ℚ :=
  let n : ℤ := q.num * 100
  let d : ℤ := (q.den : ℤ)
  let f : ℤ := n.fdiv d
  let r : ℤ := n - f * d
  let i : ℤ :=
    if 2 * r < d then f
    else if d < 2 * r then f + 1
    else if f % 2 = 0 then f else f + 1
  Rat.divInt i 100

/-- `MetadataExtractor._parse_fps` (metadata_extractor.py lines 225-234).
Splits a fraction string `num/den`, converts both parts with `float`,
and returns the quotient rounded to 2 decimals; strings without a slash
go through `float` directly.  Every failure (wrong number of parts for
the tuple unpacking, unparsable part, zero denominator) is caught by the
bare `except:` and yields Python `None`, modelled as `PyVal.none`. -/
def parse_fps (fps_string : String) : PyVal :=
  if pyContains fps_string '/' then
    match pySplit fps_string '/' with
    | [num, den] =>
        match pyFloat num, pyFloat den with
        | Option.some n, Option.some d =>
            if d = 0 then PyVal.none
            else PyVal.rat (round2 (qDiv n d))
        | _, _ => PyVal.none
    | _ => PyVal.none
  else
    match pyFloat fps_string with
    | Option.some v => PyVal.rat v
    | Option.none => PyVal.none

/-! ## SQS handler (services/sqs_handler.py) -/

/-- The configuration fields consulted by `SQSHandler._parse_message`
(config.py lines 26-38). -/
structure Config where
  expectedS3EventSource : String
  expectedS3EventPrefix : String
  s3Bucket : String
  s3Prefix : String
deriving Repr, DecidableEq

/-- The `s3` sub-object of one S3 event record, with the defaults of the
`.get` accesses already applied (`size` defaults to 0, `eTag` to `""`).
`bucketName` and `objectKey` are accessed with `[]` in the source, so a
record where they are missing is modelled by `S3EventRecord.s3 = none`. -/
structure S3Part where
  bucketName : String
  objectKey : String
  objSize : Int
  objETag : String
deriving Repr, DecidableEq

/-- One entry of the `Records` array of an S3 event notification body.
`eventSource` and `eventName` carry the `record.get(..., '')` defaults;
`s3 = none` models a record whose `record['s3']` (or nested `['bucket']
['name']` / `['object']['key']`) access raises `KeyError`. -/
structure S3EventRecord where
  eventSource : String
  eventName : String
  s3 : Option S3Part
  eventTime : Option String
  awsRegion : Option String
deriving Repr, DecidableEq

/-- A decoded JSON message body as inspected by `_parse_message`:
`records` is the value of the `'Records'` key when present, `direct` the
`(bucket, key, size)` triple when both `'bucket'` and `'key'` are
present (size carrying the `.get('size', 0)` default).  A body with both
`none` is valid JSON of an unknown format. -/
structure MessageBody where
  records : Option (List S3EventRecord)
  direct : Option (String × String × Int)
deriving Repr, DecidableEq

/-- A raw SQS delivery.  `body = none` models a `Body` that is not valid
JSON (`json.loads` raises `JSONDecodeError`). -/
structure RawMessage where
  messageId : String
  receiptHandle : String
  body : Option MessageBody
deriving Repr, DecidableEq

/-- The parsed-message dictionary returned by `_parse_message`.  `etag`,
`eventSource` and `awsRegion` are `Option`s because the direct/test
format omits those keys (sqs_handler.py lines 176-185). -/
structure ParsedMessage where
  messageId : String
  receiptHandle : String
  bucket : String
  key : String
  size : Int
  etag : Option String
  eventName : String
  eventTime : Option String
  eventSource : Option String
  awsRegion : Option String
deriving Repr, DecidableEq

/-- The event dictionary built for a record that passed all checks
(sqs_handler.py lines 160-172). -/
def eventOfRecord (mid rh : String) (r : S3EventRecord) : ParsedMessage :=
  match r.s3 with
  | Option.some p =>
      { messageId := mid, receiptHandle := rh, bucket := p.bucketName,
        key := p.objectKey, size := p.objSize, etag := Option.some p.objETag,
        eventName := r.eventName, eventTime := r.eventTime,
        eventSource := Option.some r.eventSource, awsRegion := r.awsRegion }
  | Option.none =>
      { messageId := mid, receiptHandle := rh, bucket := "", key := "",
        size := 0, etag := Option.none, eventName := r.eventName,
        eventTime := r.eventTime, eventSource := Option.some r.eventSource,
        awsRegion := r.awsRegion }

/-- The `for record in body['Records']` loop of `_parse_message`
(sqs_handler.py lines 131-172).  `Except.error` models an exception
escaping the loop (the `record['s3']` access raising `KeyError`);
`Except.ok none` is falling off the end of the loop with no valid
record, which makes `_parse_message` return `None`. -/
def parseRecordsLoop (cfg : Config) (mid rh : String) :
    List S3EventRecord → Except String (Option ParsedMessage)
  | [] => Except.ok Option.none
  | r :: rest =>
    if r.eventSource ≠ cfg.expectedS3EventSource then
      parseRecordsLoop cfg mid rh rest
    else if ¬ pyStartsWith r.eventName cfg.expectedS3EventPrefix then
      parseRecordsLoop cfg mid rh rest
    else
      match r.s3 with
      | Option.none => Except.error "KeyError"
      | Option.some p =>
        if p.bucketName ≠ cfg.s3Bucket then
          parseRecordsLoop cfg mid rh rest
        else if ¬ pyStartsWith p.objectKey (cfg.s3Prefix ++ "/") then
          parseRecordsLoop cfg mid rh rest
        else
          Except.ok (Option.some (eventOfRecord mid rh r))

/-- The body of `_parse_message` before its own `try`/`except`
(sqs_handler.py lines 125-189); `Except.error` is a raised exception. -/
def parseMessageBody (cfg : Config) (m : RawMessage) :
    Except String (Option ParsedMessage) :=
  match m.body with
  | Option.none => Except.error "JSONDecodeError"
  | Option.some bd =>
    match bd.records with
    | Option.some rs => parseRecordsLoop cfg m.messageId m.receiptHandle rs
    | Option.none =>
      match bd.direct with
      | Option.some (b, k, sz) =>
          Except.ok (Option.some
            { messageId := m.messageId, receiptHandle := m.receiptHandle,
              bucket := b, key := k, size := sz, etag := Option.none,
              eventName := "manual", eventTime := Option.none,
              eventSource := Option.none, awsRegion := Option.none })
      | Option.none => Except.ok Option.none

/-- `SQSHandler._parse_message` as seen by its caller: the internal
`except json.JSONDecodeError` / `except Exception` clauses both return
`None`, so no exception ever escapes (sqs_handler.py lines 191-196). -/
def parse_message_call (cfg : Config) (m : RawMessage) :
    Except String (Option ParsedMessage) :=
  match parseMessageBody cfg m with
  | Except.ok r => Except.ok r
  | Except.error _ => Except.ok Option.none

/-- `_parse_message`'s return value. -/
def parse_message (cfg : Config) (m : RawMessage) : Option ParsedMessage :=
  match parse_message_call cfg m with
  | Except.ok r => r
  | Except.error _ => Option.none

/-- What one poll round trip produces: the parsed events handed to the
orchestrator and the receipt handles deleted during parsing. -/
structure PollResult where
  events : List ParsedMessage
  deleted : List String
deriving Repr, DecidableEq

/-- The message loop of `SQSHandler.poll_messages` (sqs_handler.py lines
98-109): each raw message is parsed inside a `try`; a parsed result is
appended, `None` is skipped, and only a raised exception triggers
`delete_message` on the raw message. -/
def poll_messages (cfg : Config) : List RawMessage → PollResult
  | [] => { events := [], deleted := [] }
  | m :: rest =>
    let tail := poll_messages cfg rest
    match parse_message_call cfg m with
    | Except.ok (Option.some pm) => { tail with events := pm :: tail.events }
    | Except.ok Option.none => tail
    | Except.error _ => { tail with deleted := m.receiptHandle :: tail.deleted }

/-- A record is skipped by a `continue` of the validation ladder:
it fails the event-source, event-name, bucket or key-prefix check
without raising. -/
def recordSkips (cfg : Config) (r : S3EventRecord) : Bool :=
  if r.eventSource ≠ cfg.expectedS3EventSource then true
  else if ¬ pyStartsWith r.eventName cfg.expectedS3EventPrefix then true
  else
    match r.s3 with
    | Option.none => false
    | Option.some p =>
        (p.bucketName != cfg.s3Bucket) || !pyStartsWith p.objectKey (cfg.s3Prefix ++ "/")

/-- A record passes all five validation checks. -/
def recordPasses (cfg : Config) (r : S3EventRecord) : Bool :=
  (r.eventSource == cfg.expectedS3EventSource) &&
  pyStartsWith r.eventName cfg.expectedS3EventPrefix &&
  match r.s3 with
  | Option.some p =>
      (p.bucketName == cfg.s3Bucket) && pyStartsWith p.objectKey (cfg.s3Prefix ++ "/")
  | Option.none => false

/-- A raw message fails validation in the sense of the specification's
five-step ladder: its body is not decodable JSON, or decodes to an
unknown shape, or is a `Records` envelope in which no record passes all
checks. -/
def failsValidation (cfg : Config) (m : RawMessage) : Prop :=
  m.body = Option.none ∨
  (∃ bd, m.body = Option.some bd ∧ bd.records = Option.none ∧ bd.direct = Option.none) ∨
  (∃ bd rs, m.body = Option.some bd ∧ bd.records = Option.some rs ∧
    ∀ r ∈ rs, recordPasses cfg r = false)

/-! ## S3 downloader (services/s3_downloader.py) -/

/-- Outcome of the `head_object` metadata pre-check inside
`download_file` (s3_downloader.py lines 91-103): success, a
`NoSuchKey` client error (which aborts the download), or any other
client error (which is only logged as a warning and does *not* abort). -/
inductive HeadOutcome where
  | ok
  | noSuchKey
  | otherClientError
deriving Repr, DecidableEq

/-- The external effects observed by one `download_file` call:
the head pre-check outcome, whether the byte transfer call returned
without raising, and the state of the local file after the transfer. -/
structure DownloadEnv where
  headOutcome : HeadOutcome
  transferOk : Bool
  fileExistsAfter : Bool
  fileSizeAfter : Nat
deriving Repr, DecidableEq

/-- Python `os.path.basename` on a POSIX key: the part after the last
slash. -/
def basename (p : String) : String := (pySplit p '/').getLastD ""

/-- `S3Downloader.download_file` (s3_downloader.py lines 66-131).
Derives the local filename from the key when not given, aborts on a
`NoSuchKey` head error or a failed transfer, and then returns the local
path whenever `os.path.exists` succeeds — the size is read only for the
log line; an existing empty file is still returned as success. -/
def download_file (env : DownloadEnv) (download_dir bucket key : String)
    (local_filename : Option String) : Option String :=
  let fname := local_filename.getD (download_dir ++ "/" ++ basename key)
  match env.headOutcome with
  | HeadOutcome.noSuchKey => Option.none
  | _ =>
      if env.transferOk then
        if env.fileExistsAfter then Option.some fname else Option.none
      else Option.none

/-! ## Database updater (services/database_updater.py) -/

/-- Python truthiness of a value, as used by `if metadata:` and
`if error_message:` in `update_processing_status` and by
`s3_metadata or {}` in the orchestrator. -/
def PyVal.truthy : PyVal → Bool
  | .none => false
  | .bool b => b
  | .int n => n != 0
  | .rat q => q != 0
  | .str s => s != ""
  | .list xs => !xs.isEmpty
  | .dict xs => !xs.isEmpty

/-- `DatabaseUpdater._extract_upload_id_from_key` (database_updater.py
lines 156-171): split the key on `/`; when there are at least 4 parts
and the first is `"uploads"`, the upload id is the last part up to its
first `.`; otherwise `None`.  The function is total — convention
mismatches return `None` instead of raising. -/
def extract_upload_id_from_key (s3_key : String) : Option String :=
  let key_parts := pySplit s3_key '/'
  if 4 ≤ key_parts.length && (key_parts.headD "" == "uploads") then
    Option.some ((pySplit (key_parts.getLastD "") '.').headD "")
  else Option.none

/-- A row of the `processing_records` table (database_updater.py lines
17-30), with the SQLAlchemy column defaults applied at insert.
`completedStamped` models whether `processing_completed` has been set;
`metadataJson` holds the metadata value passed to `json.dumps`. -/
structure ProcRecord where
  uploadId : Option String
  s3Bucket : String
  s3Key : String
  status : String
  completedStamped : Bool
  metadataJson : Option PyVal
  errorMessage : Option String
  retryCount : Nat
deriving Repr

/-- The record store: an id counter and the rows keyed by id. -/
structure DB where
  nextId : Nat
  records : List (Nat × ProcRecord)
deriving Repr

/-- The `if not upload_id:` derivation inside
`create_processing_record` (database_updater.py lines 86-87): a missing
or empty upload id is replaced by the one derived from the key. -/
def effectiveUploadId (upload_id : Option String) (s3_key : String) : Option String :=
  match upload_id with
  | Option.some u => if u = "" then extract_upload_id_from_key s3_key else Option.some u
  | Option.none => extract_upload_id_from_key s3_key

/-- `DatabaseUpdater.create_processing_record` (database_updater.py
lines 70-110).  `persistOk = false` models the `except` branch (store
unavailable): it returns no record id and leaves the store unchanged.
A fresh row starts at `processing_status = "processing"` with
`retry_count = 0`. -/
def create_processing_record (db : DB) (s3_bucket s3_key : String)
    (upload_id : Option String) (persistOk : Bool) : Option Nat × DB :=
  if persistOk then
    let row : ProcRecord :=
      { uploadId := effectiveUploadId upload_id s3_key,
        s3Bucket := s3_bucket, s3Key := s3_key,
        status := "processing", completedStamped := false,
        metadataJson := Option.none, errorMessage := Option.none,
        retryCount := 0 }
    (Option.some db.nextId,
      { nextId := db.nextId + 1, records := db.records ++ [(db.nextId, row)] })
  else (Option.none, db)

/-- The per-row mutation of `update_processing_status`
(database_updater.py lines 132-144): set the status; on `"completed"`
stamp completion and store the metadata when truthy; on `"failed"`
stamp completion, store a truthy error message, and increment
`retry_count`. -/
def applyStatusUpdate (r : ProcRecord) (status : String)
    (metadata : Option PyVal) (error_message : Option String) : ProcRecord :=
  let r1 := { r with status := status }
  if status = "completed" then
    { r1 with completedStamped := true,
              metadataJson := match metadata with
                | Option.some m => if m.truthy then Option.some m else r1.metadataJson
                | Option.none => r1.metadataJson }
  else if status = "failed" then
    { r1 with completedStamped := true,
              errorMessage := match error_message with
                | Option.some e => if e = "" then r1.errorMessage else Option.some e
                | Option.none => r1.errorMessage,
              retryCount := r1.retryCount + 1 }
  else r1

/-- `DatabaseUpdater.update_processing_status` (database_updater.py
lines 112-154): look the record up by id; a missing record is a logged
no-op; otherwise the row is mutated in place. -/
def update_processing_status (db : DB) (record_id : Nat) (status : String)
    (metadata : Option PyVal) (error_message : Option String) : DB :=
  match db.records.find? (fun p => p.1 == record_id) with
  | Option.none => db
  | Option.some _ =>
      { db with records := db.records.map (fun p =>
          if p.1 == record_id then
            (p.1, applyStatusUpdate p.2 status metadata error_message)
          else p) }

/-! ## Metadata extractor (services/metadata_extractor.py) -/

/-- One stream object of the ffprobe JSON output, with the fields read
by `_extract_with_ffprobe`; `Option.none` models a missing key
(`.get` returning Python `None`). -/
structure FfStream where
  codecType : String
  codecName : Option String
  width : Option Int
  height : Option Int
  rFrameRate : Option String
  displayAspectRatio : Option String
  pixFmt : Option String
deriving Repr

/-- Successfully decoded ffprobe output: the stream array plus the
`format` fields after their `float`/`int` conversions (which default to
0 when the key is missing), and the raw `format` dict that is stored
verbatim. -/
structure FfprobeData where
  streams : List FfStream
  duration : ℚ
  bitRate : Int
  size : Int
  formatRaw : PyVal
deriving Repr

/-- `primary_video.get(k)` for a string-valued key: missing keys become
Python `None`. -/
def optStrVal : Option String → PyVal
  | Option.some s => PyVal.str s
  | Option.none => PyVal.none

/-- `primary_video.get(k)` for an int-valued key. -/
def optIntVal : Option Int → PyVal
  | Option.some n => PyVal.int n
  | Option.none => PyVal.none

/-- `self._parse_fps(primary_video.get('r_frame_rate'))`: when the key
is absent, `'/' in None` raises `TypeError`, which the bare `except:`
of `_parse_fps` turns into `None`. -/
def parse_fps_opt : Option String → PyVal
  | Option.some s => parse_fps s
  | Option.none => PyVal.none

/-- The metadata dict built on the successful ffprobe path
(metadata_extractor.py lines 153-182), tagged
`extraction_method = 'ffprobe'`, with the details of the first video
stream appended when one exists (only the first is summarised). -/
def extract_with_ffprobe (pd : FfprobeData) : PyVal :=
  let video_streams := pd.streams.filter (fun s => s.codecType == "video")
  let audio_streams := pd.streams.filter (fun s => s.codecType == "audio")
  PyVal.dict
    ([("extraction_method", PyVal.str "ffprobe"),
      ("format", pd.formatRaw),
      ("video_streams", PyVal.int (video_streams.length : Int)),
      ("audio_streams", PyVal.int (audio_streams.length : Int)),
      ("duration_seconds", PyVal.rat pd.duration),
      ("bitrate", PyVal.int pd.bitRate),
      ("file_size", PyVal.int pd.size)] ++
      match video_streams with
      | [] => []
      | pv :: _ =>
          [("video_details", PyVal.dict
            [("codec", optStrVal pv.codecName),
             ("width", optIntVal pv.width),
             ("height", optIntVal pv.height),
             ("fps", parse_fps_opt pv.rFrameRate),
             ("aspect_ratio", optStrVal pv.displayAspectRatio),
             ("pixel_format", optStrVal pv.pixFmt)])])

/-- `os.path.splitext(path)[1]`: the final-dot suffix of the basename,
empty when the basename has no dot past its leading dots. -/
def splitextExt (path : String) : String :=
  let base := (pySplit path '/').getLastD ""
  let stripped := base.data.dropWhile (fun c => c = '.')
  if stripped.contains '.' then
    "." ++ String.mk ((splitOnChar '.' stripped).getLastD [])
  else ""

/-- The extension table of `_extract_basic_video_info`
(metadata_extractor.py lines 201-208). -/
def formatTable (ext : String) : String × String :=
  if ext = ".mp4" then ("MP4", "H.264")
  else if ext = ".avi" then ("AVI", "Various")
  else if ext = ".mov" then ("QuickTime", "H.264")
  else if ext = ".mkv" then ("Matroska", "Various")
  else if ext = ".wmv" then ("Windows Media", "WMV")
  else if ext = ".flv" then ("Flash Video", "H.264")
  else ("Unknown", "Unknown")

/-- `MetadataExtractor._extract_basic_video_info` (metadata_extractor.py
lines 195-223): the extension-based heuristic fallback, tagged
`extraction_method = 'basic_analysis'`.  Its `try` body is pure local
computation, so the `except` branch returning
`extraction_method = 'failed'` is unreachable and the function is
total. -/
def extract_basic_video_info (file_path : String) : PyVal :=
  let ext := (splitextExt file_path).toLower
  let fi := formatTable ext
  PyVal.dict
    [("extraction_method", PyVal.str "basic_analysis"),
     ("file_extension", PyVal.str ext),
     ("detected_format", PyVal.str fi.1),
     ("likely_codec", PyVal.str fi.2),
     ("note", PyVal.str "Limited metadata - install ffmpeg for detailed analysis")]

/-- `MetadataExtractor._extract_video_metadata` (metadata_extractor.py
lines 109-120): try the ffprobe path; on *any* exception of that path
(tool absent, availability check or extraction call timing out, a
non-zero exit code, undecodable JSON output, a failing field
conversion — all modelled by `Except.error`) fall back to the basic
extension heuristic. -/
def extract_video_metadata (probe : Except String FfprobeData)
    (file_path : String) : PyVal :=
  match probe with
  | Except.ok pd => extract_with_ffprobe pd
  | Except.error _ => extract_basic_video_info file_path

/-- The literal placeholder-analysis dict returned by
`_run_placeholder_analysis` (metadata_extractor.py lines 248-269). -/
def run_placeholder_analysis : PyVal :=
  PyVal.dict
    [("analysis_type", PyVal.str "placeholder_gait_analysis"),
     ("status", PyVal.str "completed"),
     ("processing_time_seconds", PyVal.rat 1),
     ("placeholder_results", PyVal.dict
       [("gait_cycle_detected", PyVal.bool true),
        ("estimated_stride_length", PyVal.rat (Rat.divInt 125 100)),
        ("estimated_cadence", PyVal.int 110),
        ("estimated_walking_speed", PyVal.rat (Rat.divInt 14 10)),
        ("confidence_score", PyVal.rat (Rat.divInt 85 100)),
        ("notes", PyVal.list
          [PyVal.str "This is a placeholder analysis",
           PyVal.str "Replace with actual gait analysis algorithm",
           PyVal.str "Results are simulated for demonstration"])]),
     ("next_steps", PyVal.list
       [PyVal.str "Implement actual video processing pipeline",
        PyVal.str "Add machine learning models for gait analysis",
        PyVal.str "Integrate with clinical assessment tools"])]

/-- The environment of one `extract_metadata` call: the processing
timestamp, the result of the `os.stat`-based `_get_file_info`, and the
outcome of the ffprobe path. -/
structure ExtractEnv where
  timestamp : String
  fileInfo : PyVal
  probe : Except String FfprobeData

/-- `MetadataExtractor.extract_metadata` (metadata_extractor.py lines
52-91): the composed result with its three top-level namespaces. -/
def extract_metadata (env : ExtractEnv) (file_path : String)
    (s3_metadata : PyVal) : PyVal :=
  PyVal.dict
    [("processing_info", PyVal.dict
       [("processing_timestamp", PyVal.str env.timestamp),
        ("processor_version", PyVal.str "1.0.0"),
        ("extraction_status", PyVal.str "completed")]),
     ("real_metadata", PyVal.dict
       [("file_info", env.fileInfo),
        ("s3_info", s3_metadata),
        ("video_technical_metadata", extract_video_metadata env.probe file_path)]),
     ("placeholder_analysis", PyVal.dict
       [("note", PyVal.str "THIS IS PLACEHOLDER DATA - Replace with actual gait analysis"),
        ("analysis_results", run_placeholder_analysis),
        ("warning", PyVal.str "These results are simulated for demonstration purposes only")])]

/-! ## Orchestrator (main.py) -/

/-- Externally visible side effects of processing: the receipt handles
deleted from the queue and the local files cleaned up. -/
structure Effects where
  deletedReceipts : List String
  cleanedFiles : List String
deriving Repr, DecidableEq

/-- The external outcomes seen while handling one message:
whether the record insert persisted, the download result
(`None` = failure), the `get_file_metadata` result (`None` = lookup
failure), the extraction environment, and the
`CLEANUP_AFTER_PROCESSING` flag. -/
structure MsgEnv where
  createOk : Bool
  downloadResult : Option String
  s3Metadata : Option PyVal
  extractEnv : ExtractEnv
  cleanupAfterProcessing : Bool

/-- `AnalysisService.process_message` (main.py lines 162-223): create
the processing record, download; on download failure raise
`"Failed to download file from S3"`, which the `except` clause records
as a failed status before re-raising.  On success, look up the source
metadata (`s3_metadata or {}` substitutes an empty dict when the lookup
failed), extract, mark the record completed, clean up if configured,
and delete the message.  Returns the new store, the effects, and the
re-raised exception text if any. -/
def process_message (env : MsgEnv) (msg : ParsedMessage) (db : DB)
    (eff : Effects) : DB × Effects × Option String :=
  let created := create_processing_record db msg.bucket msg.key Option.none env.createOk
  let record_id := created.1
  let db1 := created.2
  match env.downloadResult with
  | Option.none =>
      let db2 := match record_id with
        | Option.some rid =>
            update_processing_status db1 rid "failed" Option.none
              (Option.some "Failed to download file from S3")
        | Option.none => db1
      (db2, eff, Option.some "Failed to download file from S3")
  | Option.some local_path =>
      let s3m := match env.s3Metadata with
        | Option.some m => if m.truthy then m else PyVal.dict []
        | Option.none => PyVal.dict []
      let extracted := extract_metadata env.extractEnv local_path s3m
      let db2 := match record_id with
        | Option.some rid =>
            update_processing_status db1 rid "completed" (Option.some extracted)
              Option.none
        | Option.none => db1
      let eff1 :=
        if env.cleanupAfterProcessing then
          { eff with cleanedFiles := eff.cleanedFiles ++ [local_path] }
        else eff
      let eff2 := { eff1 with
        deletedReceipts := eff1.deletedReceipts ++ [msg.receiptHandle] }
      (db2, eff2, Option.none)

/-- The per-message loop of `AnalysisService.process_cycle` (main.py
lines 140-155): each message is handled inside a `try`; when handling
raises, the message is *still* deleted to prevent infinite retries. -/
def process_cycle (items : List (MsgEnv × ParsedMessage)) (db : DB)
    (eff : Effects) : DB × Effects :=
  match items with
  | [] => (db, eff)
  | (env, msg) :: rest =>
      let step := process_message env msg db eff
      let eff2 := match step.2.2 with
        | Option.none => step.2.1
        | Option.some _ => { step.2.1 with
            deletedReceipts := step.2.1.deletedReceipts ++ [msg.receiptHandle] }
      process_cycle rest step.1 eff2

/-! ## Main loop runtime budget (main.py lines 62, 106-118) -/

/-- Multiplication of a rational by an integer, written through
`Rat.divInt` so that it evaluates by reduction. -/
def qMulInt (q : ℚ) (n : ℤ) : ℚ := Rat.divInt (q.num * n) (q.den : ℤ)

/-- main.py line 62: `MAX_RUNTIME_HOURS * 3600 if MAX_RUNTIME_HOURS > 0
else None`. -/
def max_runtime_seconds (maxRuntimeHours : ℚ) : Option ℚ :=
  if 0 < maxRuntimeHours then Option.some (qMulInt maxRuntimeHours 3600)
  else Option.none

/-- Python truthiness of `self.max_runtime_seconds` as tested by
`if self.max_runtime_seconds:` (main.py line 108). -/
def budgetActive : Option ℚ → Bool
  | Option.none => false
  | Option.some b => b != 0

/-- The `while self.running` loop of `AnalysisService.start` (main.py
lines 106-118), abstracted to which iterations call `process_cycle`:
at the start of each iteration the elapsed time is checked against the
budget *before* polling, and the loop breaks when it is exceeded.  One
iteration is one whole cycle — in-flight message handling happens
inside `process_cycle` and always runs to completion before the next
check.  `fuel` bounds the iterations (the loop also stops on shutdown
signals); `elapsed n` is the elapsed seconds observed at iteration `n`.
The returned list contains the indices of the iterations that polled. -/
def loop_polls (budget : Option ℚ) (elapsed : Nat → ℚ) :
    Nat → Nat → List Nat
  | 0, _ => []
  | fuel + 1, i =>
    if budgetActive budget &&
        (match budget with
         | Option.some b => decide (b ≤ elapsed i)
         | Option.none => false) then
      []
    else i :: loop_polls budget elapsed fuel (i + 1)

/-! ## Theorems -/

/-- `_parse_message` catches every exception of its body and returns
`None`, so the call in the poll loop never raises. -/
lemma parse_message_call_ok (cfg : Config) (m : RawMessage) :
    parse_message_call cfg m = Except.ok (parse_message cfg m) := by
  unfold parse_message parse_message_call
  cases parseMessageBody cfg m <;> rfl

/-- The poll loop surfaces exactly the successfully parsed messages and,
since `_parse_message` never raises, deletes nothing. -/
lemma poll_messages_spec (cfg : Config) (msgs : List RawMessage) :
    poll_messages cfg msgs =
      { events := msgs.filterMap (parse_message cfg), deleted := [] } := by
  induction msgs with
  | nil => rfl
  | cons m rest ih =>
    simp only [poll_messages, ih, parse_message_call_ok, List.filterMap_cons]
    cases h : parse_message cfg m <;> simp

/-- A record that fails a check without raising is skipped by the loop. -/
lemma parseRecordsLoop_skip (cfg : Config) (mid rh : String)
    (r : S3EventRecord) (l : List S3EventRecord)
    (h : recordSkips cfg r = true) :
    parseRecordsLoop cfg mid rh (r :: l) = parseRecordsLoop cfg mid rh l := by
  unfold recordSkips at h
  by_cases c1 : r.eventSource = cfg.expectedS3EventSource
  · by_cases c2 : pyStartsWith r.eventName cfg.expectedS3EventPrefix = true
    · cases hs3 : r.s3 with
      | none => rw [if_neg (by simp [c1]), if_neg (by simp [c2]), hs3] at h; simp at h
      | some p =>
        rw [if_neg (by simp [c1]), if_neg (by simp [c2]), hs3] at h
        simp only [Bool.or_eq_true, bne_iff_ne, Bool.not_eq_true'] at h
        rcases h with h | h
        · simp [parseRecordsLoop, c1, c2, hs3, h]
        · simp [parseRecordsLoop, c1, c2, hs3, h]
    · simp [parseRecordsLoop, c1, c2]
  · simp [parseRecordsLoop, c1]

/-- The first record that passes every check is returned immediately;
the rest of the `Records` array is never examined. -/
lemma parseRecordsLoop_pass (cfg : Config) (mid rh : String)
    (r : S3EventRecord) (l : List S3EventRecord)
    (h : recordPasses cfg r = true) :
    parseRecordsLoop cfg mid rh (r :: l) =
      Except.ok (Option.some (eventOfRecord mid rh r)) := by
  unfold recordPasses at h
  cases hs3 : r.s3 with
  | none => rw [hs3] at h; simp at h
  | some p =>
    rw [hs3] at h
    simp only [Bool.and_eq_true, beq_iff_eq] at h
    obtain ⟨⟨hsrc, hname⟩, hbkt, hkey⟩ := h
    simp [parseRecordsLoop, hsrc, hname, hs3, hbkt, hkey]

/-- If no record of the array passes all checks, the loop either falls
off the end (`None`) or raises; it never produces an event. -/
lemma parseRecordsLoop_all_fail (cfg : Config) (mid rh : String)
    (rs : List S3EventRecord)
    (h : ∀ r ∈ rs, recordPasses cfg r = false) :
    parseRecordsLoop cfg mid rh rs = Except.ok Option.none ∨
      ∃ e, parseRecordsLoop cfg mid rh rs = Except.error e := by
  induction rs with
  | nil => exact Or.inl rfl
  | cons r rest ih =>
    have hr := h r (List.mem_cons_self r rest)
    have hrest := ih (fun r' hr' => h r' (List.mem_cons_of_mem r hr'))
    by_cases c1 : r.eventSource = cfg.expectedS3EventSource
    · by_cases c2 : pyStartsWith r.eventName cfg.expectedS3EventPrefix = true
      · cases hs3 : r.s3 with
        | none =>
          refine Or.inr ⟨"KeyError", ?_⟩
          simp [parseRecordsLoop, c1, c2, hs3]
        | some p =>
          by_cases c3 : p.bucketName = cfg.s3Bucket
          · by_cases c4 : pyStartsWith p.objectKey (cfg.s3Prefix ++ "/") = true
            · exfalso
              unfold recordPasses at hr
              rw [hs3] at hr
              simp [c1, c2, c3, c4] at hr
            · have : parseRecordsLoop cfg mid rh (r :: rest) =
                  parseRecordsLoop cfg mid rh rest := by
                simp [parseRecordsLoop, c1, c2, hs3, c3, c4]
              rw [this]; exact hrest
          · have : parseRecordsLoop cfg mid rh (r :: rest) =
                parseRecordsLoop cfg mid rh rest := by
              simp [parseRecordsLoop, c1, c2, hs3, c3]
            rw [this]; exact hrest
      · have : parseRecordsLoop cfg mid rh (r :: rest) =
            parseRecordsLoop cfg mid rh rest := by
          simp [parseRecordsLoop, c1, c2]
        rw [this]; exact hrest
    · have : parseRecordsLoop cfg mid rh (r :: rest) =
          parseRecordsLoop cfg mid rh rest := by
        simp [parseRecordsLoop, c1]
      rw [this]; exact hrest

/-- **C1 (amended).** A raw queue message that fails the validation
ladder (body not decodable, unknown format, or no record passing the
source / event-name / bucket / key-prefix checks) yields no event from
`poll`, but — contrary to the original claim — its delivery is *not*
deleted: the poll loop only deletes a message when `_parse_message`
raises, and `_parse_message` catches all of its own exceptions and
returns `None`, so the deleted set of a poll round is always empty. -/
theorem poll_drops_invalid_without_deleting (cfg : Config) (m : RawMessage)
    (msgs : List RawMessage) (h : failsValidation cfg m) :
    parse_message cfg m = Option.none ∧
    (poll_messages cfg msgs).events = msgs.filterMap (parse_message cfg) ∧
    (poll_messages cfg msgs).deleted = [] := by
  refine ⟨?_, by rw [poll_messages_spec], by rw [poll_messages_spec]⟩
  rcases h with hb | ⟨bd, hb, hrec, hdir⟩ | ⟨bd, rs, hb, hrec, hfail⟩
  · simp [parse_message, parse_message_call, parseMessageBody, hb]
  · simp [parse_message, parse_message_call, parseMessageBody, hb, hrec, hdir]
  · rcases parseRecordsLoop_all_fail cfg m.messageId m.receiptHandle rs hfail with
      hl | ⟨e, hl⟩ <;>
    simp [parse_message, parse_message_call, parseMessageBody, hb, hrec, hl]

/-- Witness for C1's amended theorem at a concrete invalid message
(undecodable body) and a one-message poll batch. -/
theorem poll_drops_invalid_without_deleting_witness :
    parse_message ⟨"aws:s3", "ObjectCreated", "dancer-uploads", "uploads"⟩
        ⟨"m1", "rh1", Option.none⟩ = Option.none ∧
    (poll_messages ⟨"aws:s3", "ObjectCreated", "dancer-uploads", "uploads"⟩
        [⟨"m1", "rh1", Option.none⟩]).events =
      [⟨"m1", "rh1", Option.none⟩].filterMap
        (parse_message ⟨"aws:s3", "ObjectCreated", "dancer-uploads", "uploads"⟩) ∧
    (poll_messages ⟨"aws:s3", "ObjectCreated", "dancer-uploads", "uploads"⟩
        [⟨"m1", "rh1", Option.none⟩]).deleted = [] :=
  poll_drops_invalid_without_deleting _ _ _ (Or.inl rfl)

/-- **C1 (counterexample to the original claim).** A message whose body
fails to decode produces no event, yet its receipt handle is *not* in
the deleted set of the poll round — the original claim asserts it would
be deleted. -/
theorem poll_invalid_message_not_deleted_counterexample :
    (poll_messages ⟨"aws:s3", "ObjectCreated", "dancer-uploads", "uploads"⟩
        [⟨"m1", "rh1", Option.none⟩]).events = [] ∧
    "rh1" ∉ (poll_messages ⟨"aws:s3", "ObjectCreated", "dancer-uploads", "uploads"⟩
        [⟨"m1", "rh1", Option.none⟩]).deleted := by
  decide

/-- Records that are skipped by the validation ladder do not affect the
rest of the loop. -/
lemma parseRecordsLoop_append_skips (cfg : Config) (mid rh : String)
    (pre l : List S3EventRecord)
    (hpre : ∀ r' ∈ pre, recordSkips cfg r' = true) :
    parseRecordsLoop cfg mid rh (pre ++ l) = parseRecordsLoop cfg mid rh l := by
  induction pre with
  | nil => rfl
  | cons r' rest ih =>
    rw [List.cons_append,
      parseRecordsLoop_skip cfg mid rh r' (rest ++ l) (hpre r' (List.mem_cons_self r' rest)),
      ih (fun x hx => hpre x (List.mem_cons_of_mem r' hx))]

/-- **C9.** A `Records` body yields at most one event per raw message
(the poll result never has more events than messages), and the event it
yields is built from the *first* record that passes all validation
checks: every record after it — here an arbitrary `post`, on which the
result does not depend — is ignored, even if it would also pass. -/
theorem parse_returns_first_valid_record_only (cfg : Config) (mid rh : String)
    (d : Option (String × String × Int))
    (pre post : List S3EventRecord) (r : S3EventRecord)
    (msgs : List RawMessage)
    (hpre : ∀ r' ∈ pre, recordSkips cfg r' = true)
    (hr : recordPasses cfg r = true) :
    parse_message cfg
        { messageId := mid, receiptHandle := rh,
          body := Option.some { records := Option.some (pre ++ r :: post), direct := d } }
      = Option.some (eventOfRecord mid rh r) ∧
    (poll_messages cfg msgs).events.length ≤ msgs.length := by
  constructor
  · simp only [parse_message, parse_message_call, parseMessageBody]
    rw [parseRecordsLoop_append_skips cfg mid rh pre (r :: post) hpre,
      parseRecordsLoop_pass cfg mid rh r post hr]
  · rw [poll_messages_spec]
    exact List.length_filterMap_le _ _

/-- Witness for C9 at a concrete two-valid-record message: the first
passing record (after one skipped record) is surfaced; the second
passing record in `post` is not. -/
theorem parse_returns_first_valid_record_only_witness :
    parse_message ⟨"aws:s3", "ObjectCreated", "dancer-uploads", "uploads"⟩
        { messageId := "m2", receiptHandle := "rh2",
          body := Option.some
            { records := Option.some
                ([⟨"aws:sns", "ObjectCreated:Put", Option.some ⟨"dancer-uploads", "uploads/a/b/c.mp4", 7, "e0"⟩, Option.none, Option.none⟩] ++
                  ⟨"aws:s3", "ObjectCreated:Put", Option.some ⟨"dancer-uploads", "uploads/u1/s1/abc123.mp4", 10, "e1"⟩, Option.none, Option.none⟩ ::
                  [⟨"aws:s3", "ObjectCreated:Put", Option.some ⟨"dancer-uploads", "uploads/u2/s2/def456.mp4", 20, "e2"⟩, Option.none, Option.none⟩]),
              direct := Option.none } }
      = Option.some (eventOfRecord "m2" "rh2"
          ⟨"aws:s3", "ObjectCreated:Put", Option.some ⟨"dancer-uploads", "uploads/u1/s1/abc123.mp4", 10, "e1"⟩, Option.none, Option.none⟩) ∧
    (poll_messages ⟨"aws:s3", "ObjectCreated", "dancer-uploads", "uploads"⟩ []).events.length ≤
      ([] : List RawMessage).length :=
  parse_returns_first_valid_record_only _ "m2" "rh2" Option.none _ _ _ []
    (by decide) (by decide)

/-- **C3 (counterexample to the original claim).** On the fraction
`"0/0"` the parser yields Python `None` — the absence of a value — and
not the string `"unknown"` asserted by the claim. -/
theorem parse_fps_zero_den_is_none_counterexample :
    parse_fps "0/0" = PyVal.none ∧ PyVal.none ≠ PyVal.str "unknown" :=
  ⟨rfl, fun h => PyVal.noConfusion h⟩

/-- **C3 (amended).** `"30/1"` parses to `30.0` and `"24000/1001"` to
`23.98` (rounded to 2 decimal places); `"0/0"`, fractions with
unparsable or too many parts, and any slash-free string `float` rejects
all yield Python `None` — no exception and no value — rather than the
string `"unknown"`. -/
theorem parse_fps_spec (s : String)
    (h1 : pyFloat s = Option.none) (h2 : pyContains s '/' = false) :
    parse_fps "30/1" = PyVal.rat 30 ∧
    parse_fps "24000/1001" = PyVal.rat (Rat.divInt 2398 100) ∧
    parse_fps "0/0" = PyVal.none ∧
    parse_fps "a/b" = PyVal.none ∧
    parse_fps "1/2/3" = PyVal.none ∧
    parse_fps s = PyVal.none :=
  ⟨rfl, rfl, rfl, rfl, rfl, by simp [parse_fps, h1, h2]⟩

/-- Witness for C3's amended theorem at the unparsable input `"abc"`. -/
theorem parse_fps_spec_witness :
    parse_fps "30/1" = PyVal.rat 30 ∧
    parse_fps "24000/1001" = PyVal.rat (Rat.divInt 2398 100) ∧
    parse_fps "0/0" = PyVal.none ∧
    parse_fps "a/b" = PyVal.none ∧
    parse_fps "1/2/3" = PyVal.none ∧
    parse_fps "abc" = PyVal.none :=
  parse_fps_spec "abc" rfl rfl

/-- **C4 (counterexample to the original claim).** A transfer that the
backend reports as successful but that leaves an *empty* local file is
still returned as success (the local path), contradicting the claim
that success requires the destination file to be non-empty. -/
theorem download_file_empty_file_success_counterexample :
    download_file ⟨HeadOutcome.ok, true, true, 0⟩ "./temp_downloads"
        "dancer-uploads" "uploads/u1/s1/abc123.mp4" Option.none
      = Option.some "./temp_downloads/abc123.mp4" ∧
    (⟨HeadOutcome.ok, true, true, 0⟩ : DownloadEnv).fileSizeAfter = 0 := by
  decide

/-- **C4 (amended).** `download_file` returns the local path exactly
when the head pre-check did not report `NoSuchKey`, the transfer call
returned, and the destination file exists afterwards; the file's size
never influences the result (it is only logged), so a successful
transfer that leaves no local file is a failure, but one that leaves an
empty file is not. -/
theorem download_file_success_iff (env : DownloadEnv)
    (dir bucket key : String) (n : Nat) :
    (download_file env dir bucket key Option.none).isSome =
      (decide (env.headOutcome ≠ HeadOutcome.noSuchKey) &&
        env.transferOk && env.fileExistsAfter) ∧
    download_file { env with fileSizeAfter := n } dir bucket key Option.none =
      download_file env dir bucket key Option.none := by
  constructor
  · cases h : env.headOutcome <;> simp [download_file, h] <;>
      cases env.transferOk <;> cases env.fileExistsAfter <;> simp
  · cases h : env.headOutcome <;> simp [download_file, h]

/-- **C5.** The key `"uploads/u1/s1/abc123.mp4"` derives
`upload_id = "abc123"` (the filename minus its extension), and every
key with fewer than 4 slash-separated segments or whose first segment
is not `"uploads"` derives no upload id — the function is total, so no
error is raised. -/
theorem extract_upload_id_spec (key : String)
    (h : (pySplit key '/').length < 4 ∨ (pySplit key '/').headD "" ≠ "uploads") :
    extract_upload_id_from_key "uploads/u1/s1/abc123.mp4" = Option.some "abc123" ∧
    extract_upload_id_from_key key = Option.none := by
  refine ⟨by decide, ?_⟩
  have hc : ¬((4 ≤ (pySplit key '/').length &&
      ((pySplit key '/').headD "" == "uploads")) = true) := by
    simp only [Bool.and_eq_true, decide_eq_true_eq, beq_iff_eq]
    rintro ⟨hl, hh⟩
    rcases h with h | h
    · omega
    · exact h hh
  simp only [extract_upload_id_from_key]
  rw [if_neg hc]

/-- Witness for C5 at the spec's short key `"uploads/onlyonepart.mp4"`
(2 segments). -/
theorem extract_upload_id_spec_witness :
    extract_upload_id_from_key "uploads/u1/s1/abc123.mp4" = Option.some "abc123" ∧
    extract_upload_id_from_key "uploads/onlyonepart.mp4" = Option.none :=
  extract_upload_id_spec "uploads/onlyonepart.mp4" (Or.inl (by decide))

/-- **C6.** Every extraction result has exactly the three top-level
namespaces `processing_info`, `real_metadata` and
`placeholder_analysis`; the measured data lives under `real_metadata`,
and the placeholder namespace unconditionally carries the explicit
`note` and `warning` markers that its values are simulated. -/
theorem extract_metadata_namespaces (env : ExtractEnv)
    (file_path : String) (s3_metadata : PyVal) :
    (extract_metadata env file_path s3_metadata).keys =
      ["processing_info", "real_metadata", "placeholder_analysis"] ∧
    (∃ pa, (extract_metadata env file_path s3_metadata).lookup "placeholder_analysis" =
        Option.some pa ∧
      pa.lookup "note" =
        Option.some (PyVal.str "THIS IS PLACEHOLDER DATA - Replace with actual gait analysis") ∧
      pa.lookup "warning" =
        Option.some (PyVal.str "These results are simulated for demonstration purposes only")) ∧
    (∃ rm, (extract_metadata env file_path s3_metadata).lookup "real_metadata" =
        Option.some rm ∧
      rm.keys = ["file_info", "s3_info", "video_technical_metadata"]) :=
  ⟨rfl,
   ⟨PyVal.dict
      [("note", PyVal.str "THIS IS PLACEHOLDER DATA - Replace with actual gait analysis"),
       ("analysis_results", run_placeholder_analysis),
       ("warning", PyVal.str "These results are simulated for demonstration purposes only")],
     rfl, rfl, rfl⟩,
   ⟨PyVal.dict
      [("file_info", env.fileInfo),
       ("s3_info", s3_metadata),
       ("video_technical_metadata", extract_video_metadata env.probe file_path)],
     rfl, rfl⟩⟩

/-- **C7.** Whenever the ffprobe path fails — for any reason, all
modelled by the `Except.error` case — video-metadata extraction returns
exactly the extension-heuristic fallback, which is always tagged
`extraction_method = 'basic_analysis'`; the successful probe path is
tagged `extraction_method = 'ffprobe'`.  Both branches are total
functions, so the extraction step raises only if the fallback itself
would (which it cannot: it is pure local computation). -/
theorem extract_video_metadata_fallback (err file_path : String)
    (pd : FfprobeData) :
    extract_video_metadata (Except.error err) file_path =
      extract_basic_video_info file_path ∧
    (extract_basic_video_info file_path).lookup "extraction_method" =
      Option.some (PyVal.str "basic_analysis") ∧
    (extract_with_ffprobe pd).lookup "extraction_method" =
      Option.some (PyVal.str "ffprobe") ∧
    extract_video_metadata (Except.ok pd) file_path = extract_with_ffprobe pd :=
  ⟨rfl, rfl, rfl, rfl⟩

/-- Looking up a freshly appended key finds the appended row. -/
lemma lookup_append_fresh (l : List (Nat × ProcRecord)) (rid : Nat)
    (row : ProcRecord) (h : ∀ p ∈ l, p.1 ≠ rid) :
    (l ++ [(rid, row)]).lookup rid = Option.some row := by
  induction l with
  | nil => simp [List.lookup]
  | cons p rest ih =>
    have hp : (rid == p.1) = false :=
      beq_eq_false_iff_ne.mpr (fun he => h p (List.mem_cons_self p rest) he.symm)
    simp only [List.cons_append, List.lookup, hp]
    exact ih (fun q hq => h q (List.mem_cons_of_mem p hq))

/-- `find?` over a list with a freshly appended key finds the appended
row. -/
lemma find_append_fresh (l : List (Nat × ProcRecord)) (rid : Nat)
    (row : ProcRecord) (h : ∀ p ∈ l, p.1 ≠ rid) :
    (l ++ [(rid, row)]).find? (fun p => p.1 == rid) =
      Option.some (rid, row) := by
  induction l with
  | nil => simp [List.find?]
  | cons p rest ih =>
    have hp : (p.1 == rid) = false :=
      beq_eq_false_iff_ne.mpr (h p (List.mem_cons_self p rest))
    simp only [List.cons_append, List.find?, hp]
    exact ih (fun q hq => h q (List.mem_cons_of_mem p hq))

/-- Updating the key-preserving map at a fresh id rewrites exactly the
appended row. -/
lemma lookup_map_update (l : List (Nat × ProcRecord)) (rid : Nat)
    (row : ProcRecord) (f : ProcRecord → ProcRecord)
    (h : ∀ p ∈ l, p.1 ≠ rid) :
    ((l ++ [(rid, row)]).map (fun p =>
        if p.1 == rid then (p.1, f p.2) else p)).lookup rid =
      Option.some (f row) := by
  induction l with
  | nil =>
    have hself : (rid == rid) = true := beq_self_eq_true rid
    simp only [List.nil_append, List.map_cons, List.map_nil]
    rw [if_pos hself]
    simp [List.lookup]
  | cons p rest ih =>
    have hp : p.1 ≠ rid := h p (List.mem_cons_self p rest)
    have hp1 : (p.1 == rid) = false := beq_eq_false_iff_ne.mpr hp
    have hp2 : (rid == p.1) = false := beq_eq_false_iff_ne.mpr (Ne.symm hp)
    simp only [List.cons_append, List.map_cons]
    rw [if_neg (by simp [hp1])]
    simp only [List.lookup, hp2]
    exact ih (fun q hq => h q (List.mem_cons_of_mem p hq))

/-- What the failure-path update does to a fresh `"processing"` row. -/
lemma applyStatusUpdate_failed_download (row : ProcRecord) :
    applyStatusUpdate row "failed" Option.none
        (Option.some "Failed to download file from S3") =
      { row with status := "failed", completedStamped := true,
                 errorMessage := Option.some "Failed to download file from S3",
                 retryCount := row.retryCount + 1 } := by
  simp [applyStatusUpdate]

/-- **C2.** When handling an event fails (the download returns nothing,
so `process_message` raises `"Failed to download file from S3"`), the
processing record — created with `retry_count = 0` — is updated to
`status = "failed"` with that non-empty error text and
`retry_count = 1`, and the message's receipt handle is nevertheless
deleted from the queue by the cycle's failure handler. -/
theorem failed_event_recorded_and_still_acknowledged (env : MsgEnv)
    (msg : ParsedMessage) (db : DB) (eff : Effects)
    (hcreate : env.createOk = true)
    (hdl : env.downloadResult = Option.none)
    (hfresh : ∀ p ∈ db.records, p.1 ≠ db.nextId) :
    (((create_processing_record db msg.bucket msg.key Option.none true).2.records.lookup
        db.nextId).map ProcRecord.retryCount = Option.some 0) ∧
    (((process_cycle [(env, msg)] db eff).1.records.lookup db.nextId).map
        ProcRecord.status = Option.some "failed") ∧
    (((process_cycle [(env, msg)] db eff).1.records.lookup db.nextId).map
        ProcRecord.errorMessage =
      Option.some (Option.some "Failed to download file from S3")) ∧
    "Failed to download file from S3" ≠ "" ∧
    (((process_cycle [(env, msg)] db eff).1.records.lookup db.nextId).map
        ProcRecord.retryCount = Option.some 1) ∧
    msg.receiptHandle ∈ (process_cycle [(env, msg)] db eff).2.deletedReceipts := by
  have hcr :
      create_processing_record db msg.bucket msg.key Option.none true =
        (Option.some db.nextId,
          { nextId := db.nextId + 1,
            records := db.records ++
              [(db.nextId,
                { uploadId := effectiveUploadId Option.none msg.key,
                  s3Bucket := msg.bucket, s3Key := msg.key,
                  status := "processing", completedStamped := false,
                  metadataJson := Option.none, errorMessage := Option.none,
                  retryCount := 0 })] }) := by
    simp [create_processing_record]
  have hdb :
      process_cycle [(env, msg)] db eff =
        (update_processing_status
            { nextId := db.nextId + 1,
              records := db.records ++
                [(db.nextId,
                  { uploadId := effectiveUploadId Option.none msg.key,
                    s3Bucket := msg.bucket, s3Key := msg.key,
                    status := "processing", completedStamped := false,
                    metadataJson := Option.none, errorMessage := Option.none,
                    retryCount := 0 })] }
            db.nextId "failed" Option.none
            (Option.some "Failed to download file from S3"),
          { eff with deletedReceipts := eff.deletedReceipts ++ [msg.receiptHandle] }) := by
    simp only [process_cycle, process_message, hcreate, hcr, hdl]
  have hl := lookup_map_update db.records db.nextId
      { uploadId := effectiveUploadId Option.none msg.key, s3Bucket := msg.bucket,
        s3Key := msg.key, status := "processing", completedStamped := false,
        metadataJson := Option.none, errorMessage := Option.none, retryCount := 0 }
      (fun r => applyStatusUpdate r "failed" Option.none
        (Option.some "Failed to download file from S3")) hfresh
  refine ⟨?_, ?_, ?_, by decide, ?_, ?_⟩
  · rw [hcr]
    simp [lookup_append_fresh _ _ _ hfresh]
  · rw [hdb]
    simp only [update_processing_status, find_append_fresh _ _ _ hfresh, hl]
    simp [applyStatusUpdate_failed_download]
  · rw [hdb]
    simp only [update_processing_status, find_append_fresh _ _ _ hfresh, hl]
    simp [applyStatusUpdate_failed_download]
  · rw [hdb]
    simp only [update_processing_status, find_append_fresh _ _ _ hfresh, hl]
    simp [applyStatusUpdate_failed_download]
  · rw [hdb]
    simp

/-- Witness for C2: a download failure on an empty store with a
concrete message. -/
theorem failed_event_recorded_and_still_acknowledged_witness :
    (((create_processing_record ⟨0, []⟩ "dancer-uploads" "uploads/u1/s1/abc123.mp4"
        Option.none true).2.records.lookup 0).map ProcRecord.retryCount =
      Option.some 0) ∧
    (((process_cycle
        [(⟨true, Option.none, Option.none, ⟨"t0", PyVal.dict [], Except.error "err"⟩, true⟩,
          ⟨"m3", "rh3", "dancer-uploads", "uploads/u1/s1/abc123.mp4", 10,
            Option.some "e1", "ObjectCreated:Put", Option.none,
            Option.some "aws:s3", Option.none⟩)]
        ⟨0, []⟩ ⟨[], []⟩).1.records.lookup 0).map ProcRecord.status =
      Option.some "failed") ∧
    (((process_cycle
        [(⟨true, Option.none, Option.none, ⟨"t0", PyVal.dict [], Except.error "err"⟩, true⟩,
          ⟨"m3", "rh3", "dancer-uploads", "uploads/u1/s1/abc123.mp4", 10,
            Option.some "e1", "ObjectCreated:Put", Option.none,
            Option.some "aws:s3", Option.none⟩)]
        ⟨0, []⟩ ⟨[], []⟩).1.records.lookup 0).map ProcRecord.errorMessage =
      Option.some (Option.some "Failed to download file from S3")) ∧
    "Failed to download file from S3" ≠ "" ∧
    (((process_cycle
        [(⟨true, Option.none, Option.none, ⟨"t0", PyVal.dict [], Except.error "err"⟩, true⟩,
          ⟨"m3", "rh3", "dancer-uploads", "uploads/u1/s1/abc123.mp4", 10,
            Option.some "e1", "ObjectCreated:Put", Option.none,
            Option.some "aws:s3", Option.none⟩)]
        ⟨0, []⟩ ⟨[], []⟩).1.records.lookup 0).map ProcRecord.retryCount =
      Option.some 1) ∧
    "rh3" ∈ (process_cycle
        [(⟨true, Option.none, Option.none, ⟨"t0", PyVal.dict [], Except.error "err"⟩, true⟩,
          ⟨"m3", "rh3", "dancer-uploads", "uploads/u1/s1/abc123.mp4", 10,
            Option.some "e1", "ObjectCreated:Put", Option.none,
            Option.some "aws:s3", Option.none⟩)]
        ⟨0, []⟩ ⟨[], []⟩).2.deletedReceipts :=
  failed_event_recorded_and_still_acknowledged
    ⟨true, Option.none, Option.none, ⟨"t0", PyVal.dict [], Except.error "err"⟩, true⟩
    ⟨"m3", "rh3", "dancer-uploads", "uploads/u1/s1/abc123.mp4", 10,
      Option.some "e1", "ObjectCreated:Put", Option.none,
      Option.some "aws:s3", Option.none⟩
    ⟨0, []⟩ ⟨[], []⟩ rfl rfl
    (fun p hp => absurd hp (List.not_mem_nil p))

/-- What the success-path update does to a row when the metadata value
is truthy (every extraction result is a non-empty dict). -/
lemma applyStatusUpdate_completed (row : ProcRecord) (m : PyVal)
    (hm : m.truthy = true) :
    applyStatusUpdate row "completed" (Option.some m) Option.none =
      { row with status := "completed", completedStamped := true,
                 metadataJson := Option.some m } := by
  simp [applyStatusUpdate, hm]

/-- **C10.** When the download succeeds but the post-download metadata
lookup returns nothing, handling continues: extraction runs with the
empty dict substituted for the source-object attributes
(`s3_metadata or {}`), the record is marked `completed` with the
extraction result and no error text, the message is acknowledged, and
`process_message` raises nothing — a metadata-lookup failure alone
never marks the record failed. -/
theorem metadata_lookup_failure_still_completes (env : MsgEnv)
    (msg : ParsedMessage) (db : DB) (eff : Effects) (path : String)
    (hcreate : env.createOk = true)
    (hdl : env.downloadResult = Option.some path)
    (hmeta : env.s3Metadata = Option.none)
    (hfresh : ∀ p ∈ db.records, p.1 ≠ db.nextId) :
    (((process_cycle [(env, msg)] db eff).1.records.lookup db.nextId).map
        ProcRecord.status = Option.some "completed") ∧
    (((process_cycle [(env, msg)] db eff).1.records.lookup db.nextId).map
        ProcRecord.metadataJson =
      Option.some (Option.some
        (extract_metadata env.extractEnv path (PyVal.dict [])))) ∧
    (((process_cycle [(env, msg)] db eff).1.records.lookup db.nextId).map
        ProcRecord.errorMessage = Option.some Option.none) ∧
    msg.receiptHandle ∈ (process_cycle [(env, msg)] db eff).2.deletedReceipts ∧
    (process_message env msg db eff).2.2 = Option.none := by
  have hcr :
      create_processing_record db msg.bucket msg.key Option.none true =
        (Option.some db.nextId,
          { nextId := db.nextId + 1,
            records := db.records ++
              [(db.nextId,
                { uploadId := effectiveUploadId Option.none msg.key,
                  s3Bucket := msg.bucket, s3Key := msg.key,
                  status := "processing", completedStamped := false,
                  metadataJson := Option.none, errorMessage := Option.none,
                  retryCount := 0 })] }) := by
    simp [create_processing_record]
  have hl := lookup_map_update db.records db.nextId
      { uploadId := effectiveUploadId Option.none msg.key, s3Bucket := msg.bucket,
        s3Key := msg.key, status := "processing", completedStamped := false,
        metadataJson := Option.none, errorMessage := Option.none, retryCount := 0 }
      (fun r => applyStatusUpdate r "completed"
        (Option.some (extract_metadata env.extractEnv path (PyVal.dict [])))
        Option.none) hfresh
  have hpm : process_message env msg db eff =
      (update_processing_status
          { nextId := db.nextId + 1,
            records := db.records ++
              [(db.nextId,
                { uploadId := effectiveUploadId Option.none msg.key,
                  s3Bucket := msg.bucket, s3Key := msg.key,
                  status := "processing", completedStamped := false,
                  metadataJson := Option.none, errorMessage := Option.none,
                  retryCount := 0 })] }
          db.nextId "completed"
          (Option.some (extract_metadata env.extractEnv path (PyVal.dict [])))
          Option.none,
        { deletedReceipts := eff.deletedReceipts ++ [msg.receiptHandle],
          cleanedFiles :=
            if env.cleanupAfterProcessing then eff.cleanedFiles ++ [path]
            else eff.cleanedFiles },
        Option.none) := by
    cases hclean : env.cleanupAfterProcessing <;>
      simp only [process_message, hcreate, hcr, hdl, hmeta, hclean,
        if_true, if_false, Bool.false_eq_true, Bool.true_eq_false]
  have hcyc : process_cycle [(env, msg)] db eff =
      ((process_message env msg db eff).1, (process_message env msg db eff).2.1) := by
    simp only [process_cycle, hpm]
  have hm : (extract_metadata env.extractEnv path (PyVal.dict [])).truthy = true := rfl
  refine ⟨?_, ?_, ?_, ?_, by rw [hpm]⟩
  · rw [hcyc, hpm]
    simp only [update_processing_status, find_append_fresh _ _ _ hfresh, hl]
    simp [applyStatusUpdate_completed _ _ hm]
  · rw [hcyc, hpm]
    simp only [update_processing_status, find_append_fresh _ _ _ hfresh, hl]
    simp [applyStatusUpdate_completed _ _ hm]
  · rw [hcyc, hpm]
    simp only [update_processing_status, find_append_fresh _ _ _ hfresh, hl]
    simp [applyStatusUpdate_completed _ _ hm]
  · rw [hcyc, hpm]
    simp

/-- Witness for C10: a successful download of a concrete file with a
failed metadata lookup, on an empty store. -/
theorem metadata_lookup_failure_still_completes_witness :
    (((process_cycle
        [(⟨true, Option.some "./temp_downloads/abc123.mp4", Option.none,
            ⟨"t1", PyVal.dict [], Except.error "ffprobe not found"⟩, true⟩,
          ⟨"m4", "rh4", "dancer-uploads", "uploads/u1/s1/abc123.mp4", 10,
            Option.some "e1", "ObjectCreated:Put", Option.none,
            Option.some "aws:s3", Option.none⟩)]
        ⟨0, []⟩ ⟨[], []⟩).1.records.lookup 0).map ProcRecord.status =
      Option.some "completed") ∧
    (((process_cycle
        [(⟨true, Option.some "./temp_downloads/abc123.mp4", Option.none,
            ⟨"t1", PyVal.dict [], Except.error "ffprobe not found"⟩, true⟩,
          ⟨"m4", "rh4", "dancer-uploads", "uploads/u1/s1/abc123.mp4", 10,
            Option.some "e1", "ObjectCreated:Put", Option.none,
            Option.some "aws:s3", Option.none⟩)]
        ⟨0, []⟩ ⟨[], []⟩).1.records.lookup 0).map ProcRecord.metadataJson =
      Option.some (Option.some
        (extract_metadata ⟨"t1", PyVal.dict [], Except.error "ffprobe not found"⟩
          "./temp_downloads/abc123.mp4" (PyVal.dict [])))) ∧
    (((process_cycle
        [(⟨true, Option.some "./temp_downloads/abc123.mp4", Option.none,
            ⟨"t1", PyVal.dict [], Except.error "ffprobe not found"⟩, true⟩,
          ⟨"m4", "rh4", "dancer-uploads", "uploads/u1/s1/abc123.mp4", 10,
            Option.some "e1", "ObjectCreated:Put", Option.none,
            Option.some "aws:s3", Option.none⟩)]
        ⟨0, []⟩ ⟨[], []⟩).1.records.lookup 0).map ProcRecord.errorMessage =
      Option.some Option.none) ∧
    "rh4" ∈ (process_cycle
        [(⟨true, Option.some "./temp_downloads/abc123.mp4", Option.none,
            ⟨"t1", PyVal.dict [], Except.error "ffprobe not found"⟩, true⟩,
          ⟨"m4", "rh4", "dancer-uploads", "uploads/u1/s1/abc123.mp4", 10,
            Option.some "e1", "ObjectCreated:Put", Option.none,
            Option.some "aws:s3", Option.none⟩)]
        ⟨0, []⟩ ⟨[], []⟩).2.deletedReceipts ∧
    (process_message
        ⟨true, Option.some "./temp_downloads/abc123.mp4", Option.none,
          ⟨"t1", PyVal.dict [], Except.error "ffprobe not found"⟩, true⟩
        ⟨"m4", "rh4", "dancer-uploads", "uploads/u1/s1/abc123.mp4", 10,
          Option.some "e1", "ObjectCreated:Put", Option.none,
          Option.some "aws:s3", Option.none⟩
        ⟨0, []⟩ ⟨[], []⟩).2.2 = Option.none :=
  metadata_lookup_failure_still_completes
    ⟨true, Option.some "./temp_downloads/abc123.mp4", Option.none,
      ⟨"t1", PyVal.dict [], Except.error "ffprobe not found"⟩, true⟩
    ⟨"m4", "rh4", "dancer-uploads", "uploads/u1/s1/abc123.mp4", 10,
      Option.some "e1", "ObjectCreated:Put", Option.none,
      Option.some "aws:s3", Option.none⟩
    ⟨0, []⟩ ⟨[], []⟩ "./temp_downloads/abc123.mp4" rfl rfl rfl
    (fun p hp => absurd hp (List.not_mem_nil p))

lemma qMulInt_eq (q : ℚ) (n : ℤ) : qMulInt q n = q * n := by
  have hd : ((q.den : ℚ)) ≠ 0 := by
    exact_mod_cast q.den_nz
  rw [qMulInt, Rat.divInt_eq_div]
  push_cast
  rw [div_eq_iff hd, mul_comm q (n : ℚ), mul_assoc, Rat.mul_den_eq_num]
  ring

/-- **C8.** With a positive maximum-runtime budget configured, an
iteration of the main loop polls only while the elapsed time is still
below `hours * 3600` seconds: once the elapsed time meets or exceeds
the budget, the loop breaks before starting a new poll (any in-flight
work finished inside the previous cycle). -/
theorem loop_never_polls_past_budget (hours : ℚ) (hh : 0 < hours)
    (elapsed : Nat → ℚ) (fuel i j : Nat)
    (hj : j ∈ loop_polls (max_runtime_seconds hours) elapsed fuel i) :
    elapsed j < hours * 3600 := by
  have hb : max_runtime_seconds hours = Option.some (qMulInt hours 3600) := by
    simp [max_runtime_seconds, hh]
  have hpos : (0 : ℚ) < hours * 3600 := by
    have : (0 : ℚ) < 3600 := by norm_num
    exact mul_pos hh this
  have hne : qMulInt hours 3600 ≠ 0 := by
    rw [qMulInt_eq]
    exact ne_of_gt hpos
  induction fuel generalizing i with
  | zero => simp [loop_polls] at hj
  | succ fuel ih =>
    by_cases hle : qMulInt hours 3600 ≤ elapsed i
    · have hstop : loop_polls (max_runtime_seconds hours) elapsed (fuel + 1) i = [] := by
        simp [loop_polls, hb, budgetActive, hne, hle]
      rw [hstop] at hj
      simp at hj
    · have hgo : loop_polls (max_runtime_seconds hours) elapsed (fuel + 1) i =
          i :: loop_polls (max_runtime_seconds hours) elapsed fuel (i + 1) := by
        simp [loop_polls, hb, budgetActive, hle]
      rw [hgo] at hj
      rcases List.mem_cons.mp hj with hj | hj
      · subst hj
        have := lt_of_not_le hle
        rwa [qMulInt_eq] at this
      · exact ih (i + 1) hj

/-- Witness for C8 with a one-hour budget, zero elapsed time and one
unit of fuel: iteration 0 polls and its elapsed time is below the
budget. -/
theorem loop_never_polls_past_budget_witness :
    (fun _ : Nat => (0 : ℚ)) 0 < 1 * 3600 :=
  loop_never_polls_past_budget 1 (by norm_num) (fun _ => 0) 1 0 0 (by decide)

end Dancer
